import Mathlib

/-!
Shallow embedding of the memory-comparison harness
(src/memory_use_by_datastructure.py) and of the portfolio cost
calculator (src/pcost.py), together with theorems settling the
specification claims about them.

Conventions of the embedding:
* Python exceptions are modelled by `Except PyError`; code that does not
  catch an exception is translated with error-propagating `match`es.
* A CSV file already decoded by `csv.reader` is modelled as a
  `List (List String)` (one inner list of fields per line); the file
  system is a partial map `String → Option (List (List String))`, with
  `none` meaning the path does not exist.
* `tracemalloc` byte counts (`current`, `peak`) are environmental inputs
  of the probe and are passed as explicit `ℕ` parameters.
* Python `/` on integers (true division) is embedded as exact division
  in `ℚ`; `math.ceil` is `Int.ceil`; `round(x, n)` is round-half-to-even
  at `n` decimal digits, computed exactly in `ℚ`.
-/

/-- Python exceptions that the embedded scripts can raise. -/
inductive PyError where
  | indexError
  | stopIteration
  | zeroDivisionError
  | fileNotFoundError
  | nameError
  deriving DecidableEq

namespace ReadRides

/-- Embeds Python sequence indexing `row[i]` for a non-negative index:
either the element, or an IndexError. -/
def pyGet : List String → ℕ → Except PyError String
  | [], _ => Except.error PyError.indexError
  | v :: _, 0 => Except.ok v
  | _ :: rest, n + 1 => pyGet rest n

/-- A row of CTA bus data as the plain-python class `Row`
(fields `route`, `date`, `daytype`, `rides`, all strings). -/
structure Row where
  route : String
  date : String
  daytype : String
  rides : String
  deriving DecidableEq

/-- A row of CTA bus data as the `__slots__` class `SlotsRow`. -/
structure SlotsRow where
  route : String
  date : String
  daytype : String
  rides : String
  deriving DecidableEq

/-- A row of CTA bus data as the dataclass `DataclassRow`. -/
structure DataclassRow where
  route : String
  date : String
  daytype : String
  rides : String
  deriving DecidableEq

/-- A row of CTA bus data as the namedtuple `NamedtupleRow`. -/
structure NamedtupleRow where
  route : String
  date : String
  daytype : String
  rides : String
  deriving DecidableEq

/-- Embeds `build_tuple`: `(row[0], row[1], row[2], row[3])`. -/
def build_tuple (row : List String) :
    Except PyError (String × String × String × String) :=
  match pyGet row 0 with
  | Except.error e => Except.error e
  | Except.ok route =>
    match pyGet row 1 with
    | Except.error e => Except.error e
    | Except.ok date =>
      match pyGet row 2 with
      | Except.error e => Except.error e
      | Except.ok daytype =>
        match pyGet row 3 with
        | Except.error e => Except.error e
        | Except.ok rides => Except.ok (route, date, daytype, rides)

/-- Embeds `build_dictionary`: a dict literal with keys
`route`, `date`, `daytype`, `rides`, evaluated left to right.
The dict is modelled as an association list. -/
def build_dictionary (row : List String) :
    Except PyError (List (String × String)) :=
  match pyGet row 0 with
  | Except.error e => Except.error e
  | Except.ok route =>
    match pyGet row 1 with
    | Except.error e => Except.error e
    | Except.ok date =>
      match pyGet row 2 with
      | Except.error e => Except.error e
      | Except.ok daytype =>
        match pyGet row 3 with
        | Except.error e => Except.error e
        | Except.ok rides =>
          Except.ok [("route", route), ("date", date),
                     ("daytype", daytype), ("rides", rides)]

/-- Dictionary key lookup, as Python `d[key]` on the association-list
model of a dict literal. -/
def dictGet (d : List (String × String)) (key : String) : Option String :=
  (d.find? (fun p => p.1 == key)).map (fun p => p.2)

/-- Embeds `build_namedtuple`: `NamedtupleRow(row[0], row[1], row[2], row[3])`. -/
def build_namedtuple (row : List String) : Except PyError NamedtupleRow :=
  match pyGet row 0 with
  | Except.error e => Except.error e
  | Except.ok route =>
    match pyGet row 1 with
    | Except.error e => Except.error e
    | Except.ok date =>
      match pyGet row 2 with
      | Except.error e => Except.error e
      | Except.ok daytype =>
        match pyGet row 3 with
        | Except.error e => Except.error e
        | Except.ok rides => Except.ok ⟨route, date, daytype, rides⟩

/-- Embeds `build_class`: `Row(row)`, whose `__init__` reads
`row[0] .. row[3]` in order. -/
def build_class (row : List String) : Except PyError Row :=
  match pyGet row 0 with
  | Except.error e => Except.error e
  | Except.ok route =>
    match pyGet row 1 with
    | Except.error e => Except.error e
    | Except.ok date =>
      match pyGet row 2 with
      | Except.error e => Except.error e
      | Except.ok daytype =>
        match pyGet row 3 with
        | Except.error e => Except.error e
        | Except.ok rides => Except.ok ⟨route, date, daytype, rides⟩

/-- Embeds `build_slots`: `SlotsRow(row)`, whose `__init__` reads
`row[0] .. row[3]` in order. -/
def build_slots (row : List String) : Except PyError SlotsRow :=
  match pyGet row 0 with
  | Except.error e => Except.error e
  | Except.ok route =>
    match pyGet row 1 with
    | Except.error e => Except.error e
    | Except.ok date =>
      match pyGet row 2 with
      | Except.error e => Except.error e
      | Except.ok daytype =>
        match pyGet row 3 with
        | Except.error e => Except.error e
        | Except.ok rides => Except.ok ⟨route, date, daytype, rides⟩

/-- Embeds `build_dataclass`: `DataclassRow(row[0], row[1], row[2], row[3])`. -/
def build_dataclass (row : List String) : Except PyError DataclassRow :=
  match pyGet row 0 with
  | Except.error e => Except.error e
  | Except.ok route =>
    match pyGet row 1 with
    | Except.error e => Except.error e
    | Except.ok date =>
      match pyGet row 2 with
      | Except.error e => Except.error e
      | Except.ok daytype =>
        match pyGet row 3 with
        | Except.error e => Except.error e
        | Except.ok rides => Except.ok ⟨route, date, daytype, rides⟩

/-- Embeds the `for row in rows: records.append(func(row))` loop of
`read_rides`: apply `func` to every data row in file order, propagating
the first uncaught exception. -/
def run_builder {ρ : Type} (func : List String → Except PyError ρ) :
    List (List String) → Except PyError (List ρ)
  | [] => Except.ok []
  | row :: rest =>
    match func row with
    | Except.error e => Except.error e
    | Except.ok record =>
      match run_builder func rest with
      | Except.error e => Except.error e
      | Except.ok records => Except.ok (record :: records)

/-- Embeds `read_rides(filename, func)`: `open` the file (FileNotFoundError
if the path is absent), `next(rows)` discards the header line
(StopIteration if the file has no lines at all), then the loop builds one
record per remaining row. -/
def read_rides (fs : String → Option (List (List String))) (filename : String)
    {ρ : Type} (func : List String → Except PyError ρ) :
    Except PyError (List ρ) :=
  match fs filename with
  | none => Except.error PyError.fileNotFoundError
  | some [] => Except.error PyError.stopIteration
  | some (_headings :: dataRows) => run_builder func dataRows

/-- Round half to even on `ℚ`, the rounding mode of Python `round`. -/
def roundHalfEven (q : ℚ) : ℤ :=
  let f := ⌊q⌋
  let r := q - f
  if r < 1/2 then f
  else if 1/2 < r then f + 1
  else if f % 2 = 0 then f else f + 1

/-- Embeds Python `round(x, ndigits)` on the exact rational value of `x`. -/
def pyRound (x : ℚ) (ndigits : ℕ) : ℚ :=
  (roundHalfEven (x * 10 ^ ndigits) : ℚ) / 10 ^ ndigits

/-- The constant `MEGA_BYTE_SIZE = 2**20` of `measure_memory`. -/
def MEGA_BYTE_SIZE : ℕ := 2 ^ 20

/-- The tuple `measure_memory` deposits on the queue:
`(func, current_MB, peak_MB, record_count, bytes_per_record)`.
The builder callable is represented by its name string. -/
structure MeasurementResult where
  builder_label : String
  currentMB : ℚ
  peakMB : ℚ
  record_count : ℕ
  bytes_per_record : ℕ
  deriving DecidableEq

/-- Embeds `measure_memory(filename, func, queue)`.  The `current` and
`peak` byte counts sampled from `tracemalloc` are environmental inputs.
The deposited tuple carries `round(current / MEGA_BYTE_SIZE, 1)`,
`round(peak / MEGA_BYTE_SIZE, 1)`, `len(rows)` and
`math.ceil(current / len(rows))`; when `len(rows) == 0` that last
division raises ZeroDivisionError and nothing is deposited. -/
def measure_memory (current peak : ℕ)
    (fs : String → Option (List (List String))) (filename : String)
    {ρ : Type} (func : List String → Except PyError ρ) (label : String) :
    Except PyError MeasurementResult :=
  match read_rides fs filename func with
  | Except.error e => Except.error e
  | Except.ok rows =>
    if rows.length = 0 then Except.error PyError.zeroDivisionError
    else
      Except.ok
        { builder_label := label
          currentMB := pyRound ((current : ℚ) / (MEGA_BYTE_SIZE : ℚ)) 1
          peakMB := pyRound ((peak : ℚ) / (MEGA_BYTE_SIZE : ℚ)) 1
          record_count := rows.length
          bytes_per_record := (⌈(current : ℚ) / (rows.length : ℚ)⌉).toNat }

/-- Embeds `sorted(results, key=lambda x: x[1])` of the `__main__` block:
a stable sort of the worker results by their current-MB figure. -/
def sort_results (results : List MeasurementResult) : List MeasurementResult :=
  results.mergeSort (fun a b => decide (a.currentMB ≤ b.currentMB))

/-- Embeds Python `str.upper()` on the ASCII builder labels. -/
def toUpperAscii (s : String) : String :=
  String.mk (s.data.map Char.toUpper)

/-- Embeds the format spec `:<10`: left-justify, pad with spaces to a
minimum width of `w`. -/
def padRight (s : String) (w : ℕ) : String :=
  s ++ String.mk (List.replicate (w - s.length) ' ')

/-- Groups a reversed digit list in threes, inserting the separator. -/
def groupThrees : List Char → List Char
  | a :: b :: c :: d :: rest => a :: b :: c :: ',' :: groupThrees (d :: rest)
  | l => l

/-- Embeds the format spec `:,` on a natural number: decimal digits with
a comma every three digits from the right. -/
def commaSep (n : ℕ) : String :=
  String.mk (groupThrees (toString n).data.reverse).reverse

/-- Decimal rendering of a float that is an exact multiple of 1/10, as
Python `str` displays the one-decimal results of `round(x, 1)` in the
report f-string. -/
def fmt_tenths (q : ℚ) : String :=
  toString (⌊q * 10⌋ / 10) ++ "." ++ toString (⌊q * 10⌋ % 10)

/-- Embeds `func.__name__[6:].upper()` padded by `:<10`: the report label. -/
def report_label (lab : String) : String :=
  padRight (toUpperAscii (lab.drop 6)) 10

/-- Embeds one line of the report f-string printed by the `__main__` block. -/
def report_line (r : MeasurementResult) : String :=
  report_label r.builder_label ++ ":  Memory: " ++ fmt_tenths r.currentMB ++
    " MB  Peak: " ++ fmt_tenths r.peakMB ++ " MB  Instances: " ++
    commaSep r.record_count ++ "  Object Size: " ++
    commaSep r.bytes_per_record ++ " bytes"

end ReadRides

namespace PCost

/-- Embeds Python `int()` on the unsigned decimal literals occurring in
portfolio share counts: all-digit strings parse, anything else raises
ValueError (`none`). -/
def parseInt? (s : String) : Option ℤ :=
  if s.data ≠ [] ∧ s.data.all Char.isDigit then
    some (s.data.foldl (fun acc c => 10 * acc + ((c.toNat : ℤ) - ('0'.toNat : ℤ))) 0)
  else none

/-- Splits a character list at every occurrence of the decimal point,
as Python string splitting does when scanning a float literal. -/
def splitDot : List Char → List (List Char)
  | [] => [[]]
  | c :: rest =>
    if c = '.' then [] :: splitDot rest
    else
      match splitDot rest with
      | [] => [[c]]
      | g :: gs => (c :: g) :: gs

/-- Embeds Python `float()` on the unsigned decimal literals occurring in
portfolio prices, giving the exact rational value: digits with an
optional single point; anything else raises ValueError (`none`). -/
def parseFloat? (s : String) : Option ℚ :=
  match splitDot s.data with
  | [w] =>
    if w ≠ [] ∧ w.all Char.isDigit then
      some ((w.foldl (fun acc c => 10 * acc + (c.toNat - '0'.toNat)) 0 : ℕ) : ℚ)
    else none
  | [w, f] =>
    if w ≠ [] ∧ f ≠ [] ∧ w.all Char.isDigit ∧ f.all Char.isDigit then
      some (((w.foldl (fun acc c => 10 * acc + (c.toNat - '0'.toNat)) 0 : ℕ) : ℚ) +
        ((f.foldl (fun acc c => 10 * acc + (c.toNat - '0'.toNat)) 0 : ℕ) : ℚ) /
          10 ^ f.length)
    else none
  | _ => none

/-- The loop state of `calc_cost`: the accumulated cost and the most
recent successful binding of `symbol, shares, price` (initially none of
the three names is bound). -/
structure CalcState where
  cost : ℚ
  lastFields : Option (String × String × String)
  deriving DecidableEq

/-- Embeds the tuple unpacking `symbol, shares, price = re.split(...)`:
succeeds exactly on three-element field lists, binding all three names
at once; any other length raises ValueError before binding anything. -/
def unpack3 (fields : List String) : Option (String × String × String) :=
  match fields with
  | [a, b, c] => some (a, b, c)
  | _ => none

/-- Embeds one iteration of the `calc_cost` loop on the fields of one
line.  A ValueError from unpacking or from `int`/`float` is caught by
the handler, which prints a diagnostic naming `symbol`, `shares`,
`price`; if unpacking failed before those names were ever bound, that
print itself raises an uncaught NameError. -/
def calc_cost_line (st : CalcState) (fields : List String) :
    Except PyError CalcState :=
  match unpack3 fields with
  | some (symbol, shares, price) =>
    match parseInt? shares, parseFloat? price with
    | some s, some p =>
      Except.ok ⟨st.cost + (s : ℚ) * p, some (symbol, shares, price)⟩
    | _, _ => Except.ok ⟨st.cost, some (symbol, shares, price)⟩
  | none =>
    match st.lastFields with
    | some _ => Except.ok st
    | none => Except.error PyError.nameError

/-- The fold of `calc_cost_line` over the lines, threading the state. -/
def calc_cost_loop (st : CalcState) : List (List String) → Except PyError CalcState
  | [] => Except.ok st
  | fields :: rest =>
    match calc_cost_line st fields with
    | Except.error e => Except.error e
    | Except.ok st2 => calc_cost_loop st2 rest

/-- Embeds `calc_cost(file_handle)` on the per-line field lists produced
by `re.split(r"[ ,]+", line)`: starts from cost 0 with no bindings and
returns the accumulated cost. -/
def calc_cost (lines : List (List String)) : Except PyError ℚ :=
  match calc_cost_loop ⟨0, none⟩ lines with
  | Except.error e => Except.error e
  | Except.ok st => Except.ok st.cost

end PCost

deriving instance DecidableEq for Except

namespace ReadRides

/-! Helper lemmas about the ingestion loop. -/

theorem run_builder_ok_length {ρ : Type} (func : List String → Except PyError ρ) :
    ∀ (l : List (List String)) (ys : List ρ),
      run_builder func l = Except.ok ys → ys.length = l.length := by
  intro l
  induction l with
  | nil =>
    intro ys h
    simp only [run_builder] at h
    cases h
    rfl
  | cons row rest ih =>
    intro ys h
    simp only [run_builder] at h
    cases hf : func row with
    | error e => rw [hf] at h; cases h
    | ok record =>
      rw [hf] at h
      cases hr : run_builder func rest with
      | error e => rw [hr] at h; cases h
      | ok records =>
        rw [hr] at h
        cases h
        simp [ih records hr]

theorem run_builder_ok_get {ρ : Type} (func : List String → Except PyError ρ) :
    ∀ (l : List (List String)) (ys : List ρ),
      run_builder func l = Except.ok ys →
      ∀ (i : ℕ) (hi : i < l.length) (hy : i < ys.length),
        func (l.get ⟨i, hi⟩) = Except.ok (ys.get ⟨i, hy⟩) := by
  intro l
  induction l with
  | nil => intro ys h i hi; exact absurd hi (by simp)
  | cons row rest ih =>
    intro ys h i hi hy
    simp only [run_builder] at h
    cases hf : func row with
    | error e => rw [hf] at h; cases h
    | ok record =>
      rw [hf] at h
      cases hr : run_builder func rest with
      | error e => rw [hr] at h; cases h
      | ok records =>
        rw [hr] at h
        cases h
        cases i with
        | zero => simpa using hf
        | succ j =>
          exact ih records hr j (Nat.lt_of_succ_lt_succ hi)
            (Nat.lt_of_succ_lt_succ hy)

theorem run_builder_ok_of_forall {ρ : Type} (func : List String → Except PyError ρ) :
    ∀ (l : List (List String)),
      (∀ r ∈ l, ∃ v, func r = Except.ok v) →
      ∃ ys, run_builder func l = Except.ok ys := by
  intro l
  induction l with
  | nil => intro _; exact ⟨[], rfl⟩
  | cons row rest ih =>
    intro h
    obtain ⟨v, hv⟩ := h row (List.mem_cons_self row rest)
    obtain ⟨ys, hys⟩ := ih (fun r hr => h r (List.mem_cons_of_mem row hr))
    exact ⟨v :: ys, by simp only [run_builder, hv, hys]⟩

theorem run_builder_ok_mem {ρ : Type} (func : List String → Except PyError ρ) :
    ∀ (l : List (List String)) (ys : List ρ),
      run_builder func l = Except.ok ys →
      ∀ r ∈ l, ∃ v, func r = Except.ok v := by
  intro l
  induction l with
  | nil => intro ys _ r hr; exact absurd hr (by simp)
  | cons row rest ih =>
    intro ys h r hr
    simp only [run_builder] at h
    cases hf : func row with
    | error e => rw [hf] at h; cases h
    | ok record =>
      rw [hf] at h
      cases hrest : run_builder func rest with
      | error e => rw [hrest] at h; cases h
      | ok records =>
        rcases List.mem_cons.mp hr with hh | ht
        · exact ⟨record, hh ▸ hf⟩
        · exact ih records hrest r ht

theorem four_cons_of_len {row : List String} (h : 4 ≤ row.length) :
    ∃ r0 r1 r2 r3 rest, row = r0 :: r1 :: r2 :: r3 :: rest := by
  match row, h with
  | r0 :: r1 :: r2 :: r3 :: rest, _ => exact ⟨r0, r1, r2, r3, rest, rfl⟩

/-! Evaluation of the six builders on a row with at least four fields. -/

theorem build_tuple_cons (r0 r1 r2 r3 : String) (rest : List String) :
    build_tuple (r0 :: r1 :: r2 :: r3 :: rest) = Except.ok (r0, r1, r2, r3) := rfl

theorem build_dictionary_cons (r0 r1 r2 r3 : String) (rest : List String) :
    build_dictionary (r0 :: r1 :: r2 :: r3 :: rest) =
      Except.ok [("route", r0), ("date", r1), ("daytype", r2), ("rides", r3)] := rfl

theorem build_namedtuple_cons (r0 r1 r2 r3 : String) (rest : List String) :
    build_namedtuple (r0 :: r1 :: r2 :: r3 :: rest) = Except.ok ⟨r0, r1, r2, r3⟩ := rfl

theorem build_class_cons (r0 r1 r2 r3 : String) (rest : List String) :
    build_class (r0 :: r1 :: r2 :: r3 :: rest) = Except.ok ⟨r0, r1, r2, r3⟩ := rfl

theorem build_slots_cons (r0 r1 r2 r3 : String) (rest : List String) :
    build_slots (r0 :: r1 :: r2 :: r3 :: rest) = Except.ok ⟨r0, r1, r2, r3⟩ := rfl

theorem build_dataclass_cons (r0 r1 r2 r3 : String) (rest : List String) :
    build_dataclass (r0 :: r1 :: r2 :: r3 :: rest) = Except.ok ⟨r0, r1, r2, r3⟩ := rfl

/-- C3: the six record builders are semantically equivalent: on any input
row with at least 4 strings, each succeeds, and the route, date, daytype
and rides values read back from each result are exactly the row's first
four elements, as strings and untransformed. -/
theorem builders_semantically_equivalent (r0 r1 r2 r3 : String) (rest : List String) :
    build_tuple (r0 :: r1 :: r2 :: r3 :: rest) = Except.ok (r0, r1, r2, r3) ∧
    (∃ d, build_dictionary (r0 :: r1 :: r2 :: r3 :: rest) = Except.ok d ∧
      dictGet d "route" = some r0 ∧ dictGet d "date" = some r1 ∧
      dictGet d "daytype" = some r2 ∧ dictGet d "rides" = some r3) ∧
    (∃ t, build_namedtuple (r0 :: r1 :: r2 :: r3 :: rest) = Except.ok t ∧
      t.route = r0 ∧ t.date = r1 ∧ t.daytype = r2 ∧ t.rides = r3) ∧
    (∃ t, build_class (r0 :: r1 :: r2 :: r3 :: rest) = Except.ok t ∧
      t.route = r0 ∧ t.date = r1 ∧ t.daytype = r2 ∧ t.rides = r3) ∧
    (∃ t, build_slots (r0 :: r1 :: r2 :: r3 :: rest) = Except.ok t ∧
      t.route = r0 ∧ t.date = r1 ∧ t.daytype = r2 ∧ t.rides = r3) ∧
    (∃ t, build_dataclass (r0 :: r1 :: r2 :: r3 :: rest) = Except.ok t ∧
      t.route = r0 ∧ t.date = r1 ∧ t.daytype = r2 ∧ t.rides = r3) := by
  refine ⟨build_tuple_cons r0 r1 r2 r3 rest,
    ⟨_, build_dictionary_cons r0 r1 r2 r3 rest, rfl, rfl, rfl, rfl⟩,
    ⟨⟨r0, r1, r2, r3⟩, build_namedtuple_cons r0 r1 r2 r3 rest, rfl, rfl, rfl, rfl⟩,
    ⟨⟨r0, r1, r2, r3⟩, build_class_cons r0 r1 r2 r3 rest, rfl, rfl, rfl, rfl⟩,
    ⟨⟨r0, r1, r2, r3⟩, build_slots_cons r0 r1 r2 r3 rest, rfl, rfl, rfl, rfl⟩,
    ⟨⟨r0, r1, r2, r3⟩, build_dataclass_cons r0 r1 r2 r3 rest, rfl, rfl, rfl, rfl⟩⟩

/-- C5: on a file with a header line and n well-formed data rows,
`read_rides` discards the header and returns exactly n records for every
one of the six builders (so `record_count` agrees across all workers),
and in general a successful run applies the builder to each data row in
file order. -/
theorem read_rides_record_count (fs : String → Option (List (List String)))
    (filename : String) (header : List String) (rows : List (List String))
    (hfs : fs filename = some (header :: rows))
    (hrows : ∀ r ∈ rows, 4 ≤ r.length) :
    (∃ l, read_rides fs filename build_dictionary = Except.ok l ∧ l.length = rows.length) ∧
    (∃ l, read_rides fs filename build_tuple = Except.ok l ∧ l.length = rows.length) ∧
    (∃ l, read_rides fs filename build_namedtuple = Except.ok l ∧ l.length = rows.length) ∧
    (∃ l, read_rides fs filename build_class = Except.ok l ∧ l.length = rows.length) ∧
    (∃ l, read_rides fs filename build_slots = Except.ok l ∧ l.length = rows.length) ∧
    (∃ l, read_rides fs filename build_dataclass = Except.ok l ∧ l.length = rows.length) ∧
    (∀ (ρ : Type) (func : List String → Except PyError ρ) (l : List ρ),
      read_rides fs filename func = Except.ok l →
      l.length = rows.length ∧
      ∀ (i : ℕ) (hi : i < rows.length) (hl : i < l.length),
        func (rows.get ⟨i, hi⟩) = Except.ok (l.get ⟨i, hl⟩)) := by
  have hred : ∀ (ρ : Type) (func : List String → Except PyError ρ),
      read_rides fs filename func = run_builder func rows := by
    intro ρ func
    unfold read_rides
    rw [hfs]
  have hgen : ∀ r ∈ rows, ∃ a b c d t, r = a :: b :: c :: d :: t :=
    fun r hr => four_cons_of_len (hrows r hr)
  have hdict := run_builder_ok_of_forall build_dictionary rows (by
    intro r hr
    obtain ⟨a, b, c, d, t, rfl⟩ := hgen r hr
    exact ⟨_, build_dictionary_cons a b c d t⟩)
  have htup := run_builder_ok_of_forall build_tuple rows (by
    intro r hr
    obtain ⟨a, b, c, d, t, rfl⟩ := hgen r hr
    exact ⟨_, build_tuple_cons a b c d t⟩)
  have hnt := run_builder_ok_of_forall build_namedtuple rows (by
    intro r hr
    obtain ⟨a, b, c, d, t, rfl⟩ := hgen r hr
    exact ⟨_, build_namedtuple_cons a b c d t⟩)
  have hcls := run_builder_ok_of_forall build_class rows (by
    intro r hr
    obtain ⟨a, b, c, d, t, rfl⟩ := hgen r hr
    exact ⟨_, build_class_cons a b c d t⟩)
  have hslots := run_builder_ok_of_forall build_slots rows (by
    intro r hr
    obtain ⟨a, b, c, d, t, rfl⟩ := hgen r hr
    exact ⟨_, build_slots_cons a b c d t⟩)
  have hdc := run_builder_ok_of_forall build_dataclass rows (by
    intro r hr
    obtain ⟨a, b, c, d, t, rfl⟩ := hgen r hr
    exact ⟨_, build_dataclass_cons a b c d t⟩)
  obtain ⟨l1, h1⟩ := hdict
  obtain ⟨l2, h2⟩ := htup
  obtain ⟨l3, h3⟩ := hnt
  obtain ⟨l4, h4⟩ := hcls
  obtain ⟨l5, h5⟩ := hslots
  obtain ⟨l6, h6⟩ := hdc
  refine ⟨⟨l1, by rw [hred]; exact h1, run_builder_ok_length _ _ _ h1⟩,
    ⟨l2, by rw [hred]; exact h2, run_builder_ok_length _ _ _ h2⟩,
    ⟨l3, by rw [hred]; exact h3, run_builder_ok_length _ _ _ h3⟩,
    ⟨l4, by rw [hred]; exact h4, run_builder_ok_length _ _ _ h4⟩,
    ⟨l5, by rw [hred]; exact h5, run_builder_ok_length _ _ _ h5⟩,
    ⟨l6, by rw [hred]; exact h6, run_builder_ok_length _ _ _ h6⟩, ?_⟩
  intro ρ func l h
  rw [hred ρ func] at h
  exact ⟨run_builder_ok_length _ _ _ h,
    fun i hi hl => run_builder_ok_get _ _ _ h i hi hl⟩

/-- C5 witness: the spec's own 3-row scenario, instantiated: a header
plus three 4-field rows gives a dictionary worker record count of 3. -/
theorem read_rides_record_count_witness :
    ∃ l, read_rides
        (fun _ => some [["route", "date", "daytype", "rides"],
                        ["1", "01/01/2024", "W", "100"],
                        ["2", "01/02/2024", "A", "50"],
                        ["3", "01/03/2024", "U", "10"]])
        "Data/ctabus.csv" build_dictionary = Except.ok l ∧ l.length = 3 :=
  (read_rides_record_count _ "Data/ctabus.csv" ["route", "date", "daytype", "rides"]
    [["1", "01/01/2024", "W", "100"],
     ["2", "01/02/2024", "A", "50"],
     ["3", "01/03/2024", "U", "10"]] rfl (by decide)).1

/-- C7: applying any of the six builders to a row with fewer than 4
elements fails with an IndexError, and that failure is not caught by the
ingestion loop: a file containing such a row can never produce a
successful record list. -/
theorem builder_short_row_fatal (row : List String) (hlen : row.length < 4) :
    build_dictionary row = Except.error PyError.indexError ∧
    build_tuple row = Except.error PyError.indexError ∧
    build_namedtuple row = Except.error PyError.indexError ∧
    build_class row = Except.error PyError.indexError ∧
    build_slots row = Except.error PyError.indexError ∧
    build_dataclass row = Except.error PyError.indexError ∧
    (∀ (ρ : Type) (func : List String → Except PyError ρ)
       (fs : String → Option (List (List String))) (filename : String)
       (header : List String) (pre post : List (List String)),
      fs filename = some (header :: (pre ++ row :: post)) →
      func row = Except.error PyError.indexError →
      ∀ l, read_rides fs filename func ≠ Except.ok l) := by
  have hprop : ∀ (ρ : Type) (func : List String → Except PyError ρ)
      (fs : String → Option (List (List String))) (filename : String)
      (header : List String) (pre post : List (List String)),
      fs filename = some (header :: (pre ++ row :: post)) →
      func row = Except.error PyError.indexError →
      ∀ l, read_rides fs filename func ≠ Except.ok l := by
    intro ρ func fs filename header pre post hfs hf l hok
    unfold read_rides at hok
    rw [hfs] at hok
    obtain ⟨v, hv⟩ := run_builder_ok_mem func _ _ hok row (by simp)
    rw [hf] at hv
    cases hv
  rcases row with - | ⟨a, - | ⟨b, - | ⟨c, - | ⟨d, t⟩⟩⟩⟩
  · exact ⟨rfl, rfl, rfl, rfl, rfl, rfl, hprop⟩
  · exact ⟨rfl, rfl, rfl, rfl, rfl, rfl, hprop⟩
  · exact ⟨rfl, rfl, rfl, rfl, rfl, rfl, hprop⟩
  · exact ⟨rfl, rfl, rfl, rfl, rfl, rfl, hprop⟩
  · simp only [List.length_cons] at hlen
    omega

/-- C7 witness: the spec's scenario of a row with only 3 fields, applied
to the tuple builder, and its fatal propagation through read_rides. -/
theorem builder_short_row_fatal_witness :
    build_tuple ["3", "01/03/2024", "U"] = Except.error PyError.indexError ∧
    ∀ l, read_rides
        (fun _ => some [["route", "date", "daytype", "rides"],
                        ["3", "01/03/2024", "U"]])
        "Data/ctabus.csv" build_tuple ≠ Except.ok l :=
  ⟨(builder_short_row_fatal ["3", "01/03/2024", "U"] (by decide)).2.1,
   (builder_short_row_fatal ["3", "01/03/2024", "U"] (by decide)).2.2.2.2.2.2
     _ build_tuple _ "Data/ctabus.csv" ["route", "date", "daytype", "rides"] [] []
     rfl
     ((builder_short_row_fatal ["3", "01/03/2024", "U"] (by decide)).2.1)⟩

/-- C10: on a file with no lines at all (not even a header), read_rides
raises StopIteration from the header read instead of returning an empty
record list. -/
theorem read_rides_empty_file_raises (fs : String → Option (List (List String)))
    (filename : String) (hfs : fs filename = some [])
    (ρ : Type) (func : List String → Except PyError ρ) :
    read_rides fs filename func = Except.error PyError.stopIteration ∧
    ∀ l, read_rides fs filename func ≠ Except.ok l := by
  have h : read_rides fs filename func = Except.error PyError.stopIteration := by
    unfold read_rides
    rw [hfs]
  refine ⟨h, fun l hl => ?_⟩
  rw [h] at hl
  cases hl

/-- C10 witness: the completely empty file, read with the tuple builder. -/
theorem read_rides_empty_file_raises_witness :
    read_rides (fun _ => some []) "Data/ctabus.csv" build_tuple =
      Except.error PyError.stopIteration :=
  (read_rides_empty_file_raises _ "Data/ctabus.csv" rfl _ build_tuple).1

end ReadRides

namespace ReadRides

/-! Evaluation helpers for floor, ceiling and Python rounding on `ℚ`. -/

theorem int_floor_eq (q : ℚ) (z : ℤ) (h1 : (z : ℚ) ≤ q) (h2 : q < z + 1) :
    ⌊q⌋ = z :=
  Int.floor_eq_iff.mpr ⟨h1, h2⟩

theorem pyRound_eq_low (x : ℚ) (n : ℕ) (z : ℤ)
    (h1 : (z : ℚ) ≤ x * 10 ^ n) (h2 : x * 10 ^ n - z < 1/2) :
    pyRound x n = (z : ℚ) / 10 ^ n := by
  have hf : ⌊x * 10 ^ n⌋ = z := int_floor_eq _ _ h1 (by linarith)
  simp only [pyRound, roundHalfEven, hf]
  rw [if_pos h2]

theorem pyRound_eq_high (x : ℚ) (n : ℕ) (z : ℤ)
    (h1 : (z : ℚ) ≤ x * 10 ^ n) (h2 : x * 10 ^ n < z + 1)
    (h3 : 1/2 < x * 10 ^ n - z) :
    pyRound x n = ((z + 1 : ℤ) : ℚ) / 10 ^ n := by
  have hf : ⌊x * 10 ^ n⌋ = z := int_floor_eq _ _ h1 h2
  simp only [pyRound, roundHalfEven, hf]
  rw [if_neg (by linarith), if_pos h3]

theorem toNat_ceil_eq (x : ℚ) (m : ℕ) (h1 : (m : ℚ) - 1 < x) (h2 : x ≤ (m : ℚ)) :
    (⌈x⌉).toNat = m := by
  have hc : ⌈x⌉ = (m : ℤ) := Int.ceil_eq_iff.mpr ⟨by push_cast; exact h1, by push_cast; exact h2⟩
  rw [hc, Int.toNat_ofNat]

theorem int_ceil_nat_div (c n : ℕ) (hn : 0 < n) :
    ⌈(c : ℚ) / (n : ℚ)⌉ = (((c + n - 1) / n : ℕ) : ℤ) := by
  have hn0 : (0 : ℚ) < (n : ℚ) := by exact_mod_cast hn
  have hdm := Nat.div_add_mod (c + n - 1) n
  have hmlt : (c + n - 1) % n < n := Nat.mod_lt _ hn
  set d := (c + n - 1) / n with hd
  set r := (c + n - 1) % n with hr
  have h1 : c ≤ n * d := by omega
  have h2 : n * d < c + n := by omega
  have hc1 : (c : ℚ) ≤ (n : ℚ) * (d : ℚ) := by exact_mod_cast h1
  have hc2 : (n : ℚ) * (d : ℚ) < (c : ℚ) + (n : ℚ) := by exact_mod_cast h2
  rw [Int.ceil_eq_iff]
  constructor
  · rw [lt_div_iff₀ hn0]
    push_cast
    nlinarith
  · rw [div_le_iff₀ hn0]
    push_cast
    nlinarith

theorem toNat_ceil_nat_div (c n : ℕ) (hn : 0 < n) :
    (⌈(c : ℚ) / (n : ℚ)⌉).toNat = (c + n - 1) / n := by
  rw [int_ceil_nat_div c n hn, Int.toNat_ofNat]

/-- Inversion principle: a successful probe run determines every field
of the deposited Measurement Result from the ingested rows. -/
theorem measure_memory_ok_inv (current peak : ℕ)
    (fs : String → Option (List (List String))) (filename : String)
    {ρ : Type} (func : List String → Except PyError ρ) (label : String)
    (res : MeasurementResult)
    (h : measure_memory current peak fs filename func label = Except.ok res) :
    ∃ rows, read_rides fs filename func = Except.ok rows ∧ rows.length ≠ 0 ∧
      res = { builder_label := label
            , currentMB := pyRound ((current : ℚ) / (MEGA_BYTE_SIZE : ℚ)) 1
            , peakMB := pyRound ((peak : ℚ) / (MEGA_BYTE_SIZE : ℚ)) 1
            , record_count := rows.length
            , bytes_per_record := (⌈(current : ℚ) / (rows.length : ℚ)⌉).toNat } := by
  unfold measure_memory at h
  split at h
  · cases h
  · rename_i rows heq
    split at h
    · cases h
    · rename_i hz
      cases h
      exact ⟨rows, heq, hz, rfl⟩

/-- C1(amended): when ingestion returns zero records, the memory probe
fails with a ZeroDivisionError from the bytes-per-record division and
deposits no Measurement Result. -/
theorem measure_memory_zero_records (current peak : ℕ)
    (fs : String → Option (List (List String))) (filename : String)
    {ρ : Type} (func : List String → Except PyError ρ) (label : String)
    (h : read_rides fs filename func = Except.ok ([] : List ρ)) :
    measure_memory current peak fs filename func label =
      Except.error PyError.zeroDivisionError := by
  unfold measure_memory
  rw [h]
  rfl

/-- C1 witness: a file holding only the header line ingests to zero
records and the probe then raises ZeroDivisionError. -/
theorem measure_memory_zero_records_witness :
    read_rides (fun _ => some [["route", "date", "daytype", "rides"]])
      "Data/ctabus.csv" build_tuple = Except.ok [] ∧
    measure_memory 7 9 (fun _ => some [["route", "date", "daytype", "rides"]])
      "Data/ctabus.csv" build_tuple "build_tuple" =
      Except.error PyError.zeroDivisionError :=
  ⟨rfl, measure_memory_zero_records 7 9 _ "Data/ctabus.csv" build_tuple "build_tuple" rfl⟩

/-- C1 counterexample: on a header-only file the probe does crash with
ZeroDivisionError and deposits no result at all, in particular none with
bytes_per_record = 0. -/
theorem measure_memory_zero_records_cex :
    measure_memory 100 100 (fun _ => some [["route", "date", "daytype", "rides"]])
      "Data/ctabus.csv" build_tuple "build_tuple" =
      Except.error PyError.zeroDivisionError ∧
    ¬ ∃ res, measure_memory 100 100
        (fun _ => some [["route", "date", "daytype", "rides"]])
        "Data/ctabus.csv" build_tuple "build_tuple" = Except.ok res ∧
        res.bytes_per_record = 0 := by
  refine ⟨rfl, ?_⟩
  rintro ⟨res, hres, -⟩
  rw [show measure_memory 100 100
      (fun _ => some [["route", "date", "daytype", "rides"]])
      "Data/ctabus.csv" build_tuple "build_tuple" =
      Except.error PyError.zeroDivisionError from rfl] at hres
  cases hres

/-- C4: every successfully deposited Measurement Result with a positive
record count has bytes_per_record equal to the ceiling of current_bytes
over record_count, which coincides with the exact integer formula
(current + count - 1) / count. -/
theorem bytes_per_record_is_ceil (current peak : ℕ)
    (fs : String → Option (List (List String))) (filename : String)
    {ρ : Type} (func : List String → Except PyError ρ) (label : String)
    (res : MeasurementResult)
    (h : measure_memory current peak fs filename func label = Except.ok res)
    (hpos : 0 < res.record_count) :
    (res.bytes_per_record : ℤ) = ⌈(current : ℚ) / (res.record_count : ℚ)⌉ ∧
    res.bytes_per_record = (current + res.record_count - 1) / res.record_count := by
  obtain ⟨rows, hrr, hz, rfl⟩ := measure_memory_ok_inv current peak fs filename func label res h
  simp only at hpos ⊢
  constructor
  · rw [int_ceil_nat_div current rows.length hpos, Int.toNat_ofNat]
  · rw [toNat_ceil_nat_div current rows.length hpos]

/-- C4 witness: a one-record run with current = 100 bytes gives
bytes_per_record = (100 + 1 - 1) / 1. -/
theorem bytes_per_record_is_ceil_witness :
    ({ builder_label := "build_tuple"
     , currentMB := pyRound ((100 : ℚ) / (MEGA_BYTE_SIZE : ℚ)) 1
     , peakMB := pyRound ((100 : ℚ) / (MEGA_BYTE_SIZE : ℚ)) 1
     , record_count := 1
     , bytes_per_record := (⌈(100 : ℚ) / ((1 : ℕ) : ℚ)⌉).toNat } :
       MeasurementResult).bytes_per_record = (100 + 1 - 1) / 1 :=
  (bytes_per_record_is_ceil 100 100
    (fun _ => some [["route", "date", "daytype", "rides"],
                    ["1", "01/01/2024", "W", "100"]])
    "Data/ctabus.csv" build_tuple "build_tuple" _ rfl (by decide)).2

/-- C8: the report aggregator's sort is a permutation of the worker
results that is non-decreasing in the printed memory value, so the
memory column of the report is non-decreasing from first to last line. -/
theorem report_sorted_by_memory (results : List MeasurementResult) :
    List.Perm (sort_results results) results ∧
    (sort_results results).Pairwise (fun a b => a.currentMB ≤ b.currentMB) := by
  constructor
  · exact List.mergeSort_perm results _
  · have htrans : ∀ a b c : MeasurementResult,
        decide (a.currentMB ≤ b.currentMB) = true →
        decide (b.currentMB ≤ c.currentMB) = true →
        decide (a.currentMB ≤ c.currentMB) = true := by
      intro a b c hab hbc
      exact decide_eq_true (le_trans (of_decide_eq_true hab) (of_decide_eq_true hbc))
    have htotal : ∀ a b : MeasurementResult,
        (decide (a.currentMB ≤ b.currentMB) || decide (b.currentMB ≤ a.currentMB)) = true := by
      intro a b
      rcases le_total a.currentMB b.currentMB with h | h
      · simp [h]
      · simp [h]
    have h := @List.sorted_mergeSort MeasurementResult
      (fun a b => decide (a.currentMB ≤ b.currentMB)) htrans htotal results
    exact h.imp (fun hab => of_decide_eq_true hab)

/-- C2: a worker pointed at a missing input file fails: read_rides
raises FileNotFoundError and the probe deposits nothing, propagating the
same error. (The harness-level consequence is a process-coordination
property outside this embedding: the dead workers put nothing on the
queue, so the dispatcher blocks in queue.get instead of exiting.) -/
theorem missing_file_worker_fatal {ρ : Type}
    (func : List String → Except PyError ρ) (current peak : ℕ) (label : String) :
    read_rides (fun _ => none) "Data/ctabus.csv" func =
      Except.error PyError.fileNotFoundError ∧
    measure_memory current peak (fun _ => none) "Data/ctabus.csv" func label =
      Except.error PyError.fileNotFoundError :=
  ⟨rfl, rfl⟩

/-- C9(amended): every successfully deposited result carries the current
and peak MB values rounded to ONE decimal place, and its printed report
line is the upper-cased builder label left-justified to width 10 (for
labels of at most 10 characters), followed by the memory, peak, comma-
separated instance count and object size fields. -/
theorem report_line_format (current peak : ℕ)
    (fs : String → Option (List (List String))) (filename : String)
    {ρ : Type} (func : List String → Except PyError ρ) (label : String)
    (res : MeasurementResult)
    (h : measure_memory current peak fs filename func label = Except.ok res) :
    res.builder_label = label ∧
    res.currentMB = pyRound ((current : ℚ) / (MEGA_BYTE_SIZE : ℚ)) 1 ∧
    res.peakMB = pyRound ((peak : ℚ) / (MEGA_BYTE_SIZE : ℚ)) 1 ∧
    report_line res =
      report_label label ++ ":  Memory: " ++ fmt_tenths res.currentMB ++
        " MB  Peak: " ++ fmt_tenths res.peakMB ++ " MB  Instances: " ++
        commaSep res.record_count ++ "  Object Size: " ++
        commaSep res.bytes_per_record ++ " bytes" ∧
    (∀ s : String, s.length ≤ 10 → (padRight s 10).length = 10) := by
  obtain ⟨rows, hrr, hz, rfl⟩ := measure_memory_ok_inv current peak fs filename func label res h
  refine ⟨rfl, rfl, rfl, rfl, ?_⟩
  intro s hs
  simp only [padRight, String.length_append, String.length_mk, List.length_replicate]
  omega

/-- C9 witness: a concrete run with current = peak = 1174406 bytes; its
current MB field is the one-decimal rounding of 1174406 / 2^20. -/
theorem report_line_format_witness :
    ({ builder_label := "build_tuple"
     , currentMB := pyRound ((1174406 : ℚ) / (MEGA_BYTE_SIZE : ℚ)) 1
     , peakMB := pyRound ((1174406 : ℚ) / (MEGA_BYTE_SIZE : ℚ)) 1
     , record_count := 1
     , bytes_per_record := (⌈(1174406 : ℚ) / ((1 : ℕ) : ℚ)⌉).toNat } :
       MeasurementResult).currentMB =
      pyRound ((1174406 : ℚ) / (MEGA_BYTE_SIZE : ℚ)) 1 :=
  (report_line_format 1174406 1174406
    (fun _ => some [["route", "date", "daytype", "rides"],
                    ["1", "01/01/2024", "W", "100"]])
    "Data/ctabus.csv" build_tuple "build_tuple" _ rfl).2.1

/-- C9 counterexample: at current = 1174406 bytes the probe records
1.1 MB (one-decimal rounding), while two-decimal rounding of the same
quantity is 1.12, a different value - so the report is not rendered with
two-decimal rounding. -/
theorem report_two_decimal_cex :
    measure_memory 1174406 1174406
      (fun _ => some [["route", "date", "daytype", "rides"],
                      ["1", "01/01/2024", "W", "100"]])
      "Data/ctabus.csv" build_tuple "build_tuple" =
      Except.ok { builder_label := "build_tuple", currentMB := 11/10,
                  peakMB := 11/10, record_count := 1,
                  bytes_per_record := 1174406 } ∧
    pyRound ((1174406 : ℚ) / (MEGA_BYTE_SIZE : ℚ)) 1 = 11/10 ∧
    pyRound ((1174406 : ℚ) / (MEGA_BYTE_SIZE : ℚ)) 2 = 28/25 ∧
    ((11 : ℚ)/10) ≠ 28/25 := by
  have h1 : pyRound ((1174406 : ℚ) / (MEGA_BYTE_SIZE : ℚ)) 1 = 11/10 := by
    rw [pyRound_eq_low ((1174406 : ℚ) / (MEGA_BYTE_SIZE : ℚ)) 1 11
        (by norm_num [MEGA_BYTE_SIZE]) (by norm_num [MEGA_BYTE_SIZE])]
    norm_num
  have h2 : pyRound ((1174406 : ℚ) / (MEGA_BYTE_SIZE : ℚ)) 2 = 28/25 := by
    rw [pyRound_eq_low ((1174406 : ℚ) / (MEGA_BYTE_SIZE : ℚ)) 2 112
        (by norm_num [MEGA_BYTE_SIZE]) (by norm_num [MEGA_BYTE_SIZE])]
    norm_num
  have h3 : (⌈(1174406 : ℚ) / ((1 : ℕ) : ℚ)⌉).toNat = 1174406 :=
    toNat_ceil_eq _ 1174406 (by norm_num) (by norm_num)
  refine ⟨?_, h1, h2, by norm_num⟩
  rw [show measure_memory 1174406 1174406
      (fun _ => some [["route", "date", "daytype", "rides"],
                      ["1", "01/01/2024", "W", "100"]])
      "Data/ctabus.csv" build_tuple "build_tuple" =
      Except.ok { builder_label := "build_tuple"
                , currentMB := pyRound ((1174406 : ℚ) / (MEGA_BYTE_SIZE : ℚ)) 1
                , peakMB := pyRound ((1174406 : ℚ) / (MEGA_BYTE_SIZE : ℚ)) 1
                , record_count := 1
                , bytes_per_record := (⌈(1174406 : ℚ) / ((1 : ℕ) : ℚ)⌉).toNat }
    from rfl, h1, h3]

end ReadRides

namespace PCost

/-- C6 counterexample: a run over three lines whose middle line has the
non-numeric share count "x" completes successfully with the cost of the
first and third lines (100 * 2.5 + 2 * 4.0 = 258): the malformed row is
skipped by the ValueError handler, not fatal, and does not stop the rows
after it from being counted. -/
theorem calc_cost_malformed_cex :
    calc_cost [["AA", "100", "2.5"], ["BB", "x", "10.0"], ["CC", "2", "4.0"]] =
      Except.ok 258 := by
  rw [show calc_cost [["AA", "100", "2.5"], ["BB", "x", "10.0"], ["CC", "2", "4.0"]] =
      Except.ok (((0 : ℚ) + ((100 : ℤ) : ℚ) * (((2 : ℕ) : ℚ) + ((5 : ℕ) : ℚ) / 10 ^ (1 : ℕ))) +
        ((2 : ℤ) : ℚ) * (((4 : ℕ) : ℚ) + ((0 : ℕ) : ℚ) / 10 ^ (1 : ℕ)))
    from rfl]
  norm_num

/-- C6(amended): a malformed row is caught by the ValueError handler of
calc_cost, not fatal: a row with non-numeric shares or price is skipped
with no contribution to the cost and the loop continues; a row with the
wrong field count is likewise skipped when the diagnostic's names are
already bound, and only in the corner case of no prior binding does the
handler itself abort with a NameError. -/
theorem calc_cost_malformed_recovered (st : CalcState) (sym sh pr : String)
    (h : parseInt? sh = none ∨ parseFloat? pr = none) :
    calc_cost_line st [sym, sh, pr] = Except.ok ⟨st.cost, some (sym, sh, pr)⟩ ∧
    (∀ (q : ℚ) (t : String × String × String) (fields : List String),
      unpack3 fields = none →
      calc_cost_line ⟨q, some t⟩ fields = Except.ok ⟨q, some t⟩) ∧
    (∀ (q : ℚ) (fields : List String),
      unpack3 fields = none →
      calc_cost_line ⟨q, none⟩ fields = Except.error PyError.nameError) := by
  refine ⟨?_, ?_, ?_⟩
  · rcases h with h | h
    · simp [calc_cost_line, unpack3, h]
    · cases hi : parseInt? sh <;> simp [calc_cost_line, unpack3, h, hi]
  · intro q t fields hf
    simp [calc_cost_line, hf]
  · intro q fields hf
    simp [calc_cost_line, hf]

/-- C6 witness: the malformed middle row of the counterexample file,
processed from a fresh state, is skipped with the cost unchanged. -/
theorem calc_cost_malformed_recovered_witness :
    (parseInt? "x" = none ∨ parseFloat? "10.0" = none) ∧
    calc_cost_line ⟨0, none⟩ ["BB", "x", "10.0"] =
      Except.ok ⟨0, some ("BB", "x", "10.0")⟩ :=
  ⟨Or.inl rfl,
   (calc_cost_malformed_recovered ⟨0, none⟩ "BB" "x" "10.0" (Or.inl rfl)).1⟩

end PCost
